import Mathlib

/-!
Shallow embedding of `ndk-beta/include/vr/gvr/capi/include/gvr_types.h`
(Google VR NDK beta types header) together with the snapshot-consumer
operations that the design document describes for this data model.

The header declares plain data structures and enumerations only.  C `float`
fields are modelled as exact rationals (`Rat`): no property considered here
involves floating-point rounding, only field storage, projection and
comparison of concrete values such as 0 and 1, which behave identically.
C `int64_t` timestamps are modelled as `Int`, and C `bool` as `Bool`.
Fixed-size C arrays `bool a[N]` are modelled as functions `Fin N → Bool`.
-/

/-- An enum for the left and right eye (`gvr_eye`). -/
inductive gvr_eye
  | GVR_LEFT_EYE
  | GVR_RIGHT_EYE
  | GVR_NUM_EYES
deriving DecidableEq, Repr

/-- A floating point 2D rect (`gvr_rectf`): field of view and texture-space
ranges. -/
structure gvr_rectf where
  left : Rat
  right : Rat
  bottom : Rat
  top : Rat
deriving DecidableEq, Repr

/-- A floating point 2D vector (`gvr_vec2f`). -/
structure gvr_vec2f where
  x : Rat
  y : Rat
deriving DecidableEq, Repr

/-- A floating point 3D vector (`gvr_vec3f`). -/
structure gvr_vec3f where
  x : Rat
  y : Rat
  z : Rat
deriving DecidableEq, Repr

/-- A floating point quaternion, in JPL format (`gvr_quatf`). -/
structure gvr_quatf where
  qx : Rat
  qy : Rat
  qz : Rat
  qw : Rat
deriving DecidableEq, Repr

/-- Render parameters for one eye region (`gvr_render_params`): viewport
bounds on the render target, field of view in degrees, and the eye type. -/
structure gvr_render_params where
  eye_viewport_bounds : gvr_rectf
  eye_fov : gvr_rectf
  eye_type : gvr_eye
deriving DecidableEq, Repr

/-- Constants that represent the status of the controller API
(`gvr_controller_api_status`).  `GVR_CONTROLLER_API_OK = 0`; the header
lists six further values, `UNSUPPORTED = 1` through `MALFUNCTION = 6`. -/
inductive gvr_controller_api_status
  | GVR_CONTROLLER_API_OK
  | GVR_CONTROLLER_API_UNSUPPORTED
  | GVR_CONTROLLER_API_NOT_AUTHORIZED
  | GVR_CONTROLLER_API_UNAVAILABLE
  | GVR_CONTROLLER_API_SERVICE_OBSOLETE
  | GVR_CONTROLLER_API_CLIENT_OBSOLETE
  | GVR_CONTROLLER_API_MALFUNCTION
deriving DecidableEq, Fintype, Repr

open gvr_controller_api_status

/-- Constants that represent the state of the controller
(`gvr_controller_connection_state`). -/
inductive gvr_controller_connection_state
  | GVR_CONTROLLER_DISCONNECTED
  | GVR_CONTROLLER_SCANNING
  | GVR_CONTROLLER_CONNECTING
  | GVR_CONTROLLER_CONNECTED
deriving DecidableEq, Fintype, Repr

open gvr_controller_connection_state

/-- `GVR_CONTROLLER_BUTTON_COUNT`: the size of the per-button state arrays
(5 physical buttons plus the dummy "none" button). -/
def GVR_CONTROLLER_BUTTON_COUNT : Nat := 6

/-- Representation of the controller state in a given moment
(`gvr_controller_state`).  Transient fields indicate events that occurred
and are true for only one frame. -/
structure gvr_controller_state where
  api_status : gvr_controller_api_status
  connection_state : gvr_controller_connection_state
  orientation : gvr_quatf
  gyro : gvr_vec3f
  accel : gvr_vec3f
  is_touching : Bool
  touch_pos : gvr_vec2f
  touch_down : Bool
  touch_up : Bool
  recentered : Bool
  recentering : Bool
  button_state : Fin GVR_CONTROLLER_BUTTON_COUNT → Bool
  button_down : Fin GVR_CONTROLLER_BUTTON_COUNT → Bool
  button_up : Fin GVR_CONTROLLER_BUTTON_COUNT → Bool
  last_orientation_timestamp : Int
  last_gyro_timestamp : Int
  last_accel_timestamp : Int
  last_touch_timestamp : Int
  last_button_timestamp : Int

/-- Non-member equality operator on `gvr::Vec3f` from the header.  The
source compares only the `x` and `y` components:
`return lhs.x == rhs.x && lhs.y == rhs.y;`. -/
def vec3f_eq (lhs rhs : gvr_vec3f) : Bool :=
  decide (lhs.x = rhs.x) && decide (lhs.y = rhs.y)

/-- Non-member inequality operator on `gvr::Vec3f` from the header:
`return !(lhs == rhs);`. -/
def vec3f_ne (lhs rhs : gvr_vec3f) : Bool :=
  !(vec3f_eq lhs rhs)

/-- Modelled from the spec: `isHealthy(state) -> bool` is client-side
consumer logic absent from the header; the spec defines it as true iff
`api_status == OK`. -/
def isHealthy (s : gvr_controller_state) : Bool :=
  decide (s.api_status = GVR_CONTROLLER_API_OK)

/-- Modelled from the spec: `isButtonPressed(state, button) -> bool` is
client-side consumer logic absent from the header; the spec defines it to
read `button_state[button]` and to return a defined "unknown" result
(here `none`) when `button` lies outside `[0, GVR_CONTROLLER_BUTTON_COUNT)`. -/
def isButtonPressed (s : gvr_controller_state) (button : Nat) : Option Bool :=
  if h : button < GVR_CONTROLLER_BUTTON_COUNT then
    some (s.button_state ⟨button, h⟩)
  else
    none

/-- Result record of `consumeEdgeEvents`. -/
structure EdgeEvents where
  touchStarted : Bool
  touchEnded : Bool
  recenterCompleted : Bool
  buttonsPressedThisFrame : Fin GVR_CONTROLLER_BUTTON_COUNT → Bool
  buttonsReleasedThisFrame : Fin GVR_CONTROLLER_BUTTON_COUNT → Bool

/-- Modelled from the spec: `consumeEdgeEvents(state)` is client-side
consumer logic absent from the header; the spec defines it to derive a
one-shot edge-event summary purely from the transient fields
(`touch_down`, `touch_up`, `recentered`, `button_down`, `button_up`). -/
def consumeEdgeEvents (s : gvr_controller_state) : EdgeEvents :=
  { touchStarted := s.touch_down
    touchEnded := s.touch_up
    recenterCompleted := s.recentered
    buttonsPressedThisFrame := s.button_down
    buttonsReleasedThisFrame := s.button_up }

/-- Modelled from the spec: the connection-state machine is advisory
consumer-side knowledge absent from the header; the spec admits exactly
DISCONNECTED→SCANNING, SCANNING→CONNECTING, CONNECTING→CONNECTED and
CONNECTED→DISCONNECTED. -/
def validTransition :
    gvr_controller_connection_state → gvr_controller_connection_state → Bool
  | GVR_CONTROLLER_DISCONNECTED, GVR_CONTROLLER_SCANNING => true
  | GVR_CONTROLLER_SCANNING, GVR_CONTROLLER_CONNECTING => true
  | GVR_CONTROLLER_CONNECTING, GVR_CONTROLLER_CONNECTED => true
  | GVR_CONTROLLER_CONNECTED, GVR_CONTROLLER_DISCONNECTED => true
  | _, _ => false

/-- A trace of observed connection states is accepted when every
consecutive pair is a valid transition. -/
def acceptsTrace :
    gvr_controller_connection_state → List gvr_controller_connection_state → Bool
  | _, [] => true
  | s, t :: rest => validTransition s t && acceptsTrace t rest

/-- Well-formedness of a rectangle as required of render parameters:
`left < right` and `bottom < top`. -/
def rectfWellFormed (r : gvr_rectf) : Bool :=
  decide (r.left < r.right) && decide (r.bottom < r.top)

/-- Modelled from the spec: well-formedness of render parameters (both the
viewport rectangle and the field-of-view rectangle are well formed).  The
header's `gvr_render_params` type itself does not enforce this. -/
def renderParamsWellFormed (p : gvr_render_params) : Bool :=
  rectfWellFormed p.eye_viewport_bounds && rectfWellFormed p.eye_fov

/-- Field-wise copy of render parameters (values cross the client/runtime
boundary by value). -/
def copyRenderParams (p : gvr_render_params) : gvr_render_params :=
  { eye_viewport_bounds := p.eye_viewport_bounds
    eye_fov := p.eye_fov
    eye_type := p.eye_type }

/-- Replace the `eye_viewport_bounds` field of render parameters. -/
def setEyeViewportBounds (p : gvr_render_params) (r : gvr_rectf) :
    gvr_render_params :=
  { p with eye_viewport_bounds := r }

/-- Replace the `eye_fov` field of render parameters. -/
def setEyeFov (p : gvr_render_params) (r : gvr_rectf) : gvr_render_params :=
  { p with eye_fov := r }

/-- Modelled from the spec: the producer-side invariant on transient
fields — a transient flag is never simultaneously true with its logical
opposite in one snapshot.  The header's `gvr_controller_state` type itself
does not enforce this. -/
def transientsWellFormed (s : gvr_controller_state) : Bool :=
  !(s.touch_down && s.touch_up) &&
    decide (∀ i : Fin GVR_CONTROLLER_BUTTON_COUNT,
      !(s.button_down i && s.button_up i))

/-- A baseline controller snapshot used for concrete evaluations: healthy
API, connected controller, all flags cleared, zero readings. -/
def baseState : gvr_controller_state :=
  { api_status := GVR_CONTROLLER_API_OK
    connection_state := GVR_CONTROLLER_CONNECTED
    orientation := ⟨0, 0, 0, 1⟩
    gyro := ⟨0, 0, 0⟩
    accel := ⟨0, 0, 0⟩
    is_touching := false
    touch_pos := ⟨0, 0⟩
    touch_down := false
    touch_up := false
    recentered := false
    recentering := false
    button_state := fun _ => false
    button_down := fun _ => false
    button_up := fun _ => false
    last_orientation_timestamp := 0
    last_gyro_timestamp := 0
    last_accel_timestamp := 0
    last_touch_timestamp := 0
    last_button_timestamp := 0 }

/-- Claim C2: `isHealthy` holds exactly when the snapshot's API status is
`GVR_CONTROLLER_API_OK`; it is false for every one of the other six status
values of `gvr_controller_api_status`. -/
theorem isHealthy_iff_ok (s : gvr_controller_state) :
    isHealthy s = true ↔ s.api_status = GVR_CONTROLLER_API_OK := by
  simp [isHealthy]

/-- Claim C1: `isButtonPressed` returns the defined error result `none`
exactly for button indices outside `[0, GVR_CONTROLLER_BUTTON_COUNT)`; in
particular it returns `none` at index `GVR_CONTROLLER_BUTTON_COUNT` itself,
and it never takes the error branch for an in-range index. -/
theorem isButtonPressed_none_iff_out_of_range :
    (∀ (s : gvr_controller_state) (b : Nat),
      isButtonPressed s b = none ↔ GVR_CONTROLLER_BUTTON_COUNT ≤ b) ∧
    (∀ s : gvr_controller_state,
      isButtonPressed s GVR_CONTROLLER_BUTTON_COUNT = none) := by
  have key : ∀ (s : gvr_controller_state) (b : Nat),
      isButtonPressed s b = none ↔ GVR_CONTROLLER_BUTTON_COUNT ≤ b := by
    intro s b
    unfold isButtonPressed
    split <;> simp_all
  exact ⟨key, fun s => (key s GVR_CONTROLLER_BUTTON_COUNT).mpr le_rfl⟩

/-- Claim C3 (counterexample): the set of non-OK values of
`gvr_controller_api_status` does not have cardinality five. -/
theorem apiStatus_nonOk_card_ne_five :
    (Finset.univ.filter (fun s : gvr_controller_api_status =>
      s ≠ GVR_CONTROLLER_API_OK)).card ≠ 5 := by
  decide

/-- Claim C3 (amended): `gvr_controller_api_status` distinguishes OK from
exactly six non-OK values: the set of non-OK values has cardinality six. -/
theorem apiStatus_nonOk_card_eq_six :
    (Finset.univ.filter (fun s : gvr_controller_api_status =>
      s ≠ GVR_CONTROLLER_API_OK)).card = 6 := by
  decide

/-- Claim C4: for a valid button index `i`, a snapshot with
`button_down[i] = true` and `button_state[i] = true` makes
`isButtonPressed` return `true`. -/
theorem isButtonPressed_after_press (s : gvr_controller_state) (i : Nat)
    (h : i < GVR_CONTROLLER_BUTTON_COUNT)
    (_hdown : s.button_down ⟨i, h⟩ = true)
    (hstate : s.button_state ⟨i, h⟩ = true) :
    isButtonPressed s i = some true := by
  unfold isButtonPressed
  rw [dif_pos h, hstate]

/-- A snapshot in which the CLICK button (index 1) was just pressed and is
held down. -/
def clickPressedState : gvr_controller_state :=
  { baseState with
    button_state := fun i => decide (i.val = 1)
    button_down := fun i => decide (i.val = 1)
    last_button_timestamp := 42 }

/-- Witness for claim C4 at the concrete snapshot `clickPressedState` and
button index 1. -/
theorem isButtonPressed_after_press_witness :
    isButtonPressed clickPressedState 1 = some true :=
  isButtonPressed_after_press clickPressedState 1 (by decide) (by decide)
    (by decide)

/-- Claim C5: `consumeEdgeEvents` is idempotent and deterministic on a
snapshot value — two calls on the identical snapshot yield identical
results — and its result is derived purely from the transient fields
`touch_down`, `touch_up`, `recentered`, `button_down`, `button_up`. -/
theorem consumeEdgeEvents_pure_of_transients :
    (∀ s : gvr_controller_state,
      consumeEdgeEvents s = consumeEdgeEvents s) ∧
    (∀ s t : gvr_controller_state,
      s.touch_down = t.touch_down → s.touch_up = t.touch_up →
      s.recentered = t.recentered → s.button_down = t.button_down →
      s.button_up = t.button_up →
      consumeEdgeEvents s = consumeEdgeEvents t) := by
  refine ⟨fun s => rfl, ?_⟩
  intro s t h1 h2 h3 h4 h5
  simp [consumeEdgeEvents, h1, h2, h3, h4, h5]

/-- A snapshot in which the user just started touching the touchpad. -/
def touchStartState : gvr_controller_state :=
  { baseState with
    is_touching := true
    touch_down := true
    last_touch_timestamp := 7 }

/-- A snapshot with the same transient fields as `touchStartState` but
different level fields (touch position and timestamp). -/
def touchStartStateLater : gvr_controller_state :=
  { touchStartState with
    touch_pos := ⟨1/2, 1/2⟩
    last_touch_timestamp := 9 }

/-- Witness for claim C5: two concrete snapshots agreeing on all transient
fields but differing in level fields produce the same edge-event summary. -/
theorem consumeEdgeEvents_pure_witness :
    consumeEdgeEvents touchStartState = consumeEdgeEvents touchStartStateLater :=
  consumeEdgeEvents_pure_of_transients.2 touchStartState touchStartStateLater
    rfl rfl rfl rfl rfl

/-- A snapshot of the `gvr_controller_state` type carrying `touch_down`
and `touch_up` simultaneously: the type itself admits it. -/
def clashState : gvr_controller_state :=
  { baseState with touch_down := true, touch_up := true }

/-- Claim C6 (counterexample): it is not the case that every value of the
`gvr_controller_state` type keeps `touch_down` and `touch_up` mutually
exclusive — `clashState` carries both. -/
theorem touch_down_up_not_exclusive_in_type :
    ¬ ∀ s : gvr_controller_state,
      ¬(s.touch_down = true ∧ s.touch_up = true) := by
  intro h
  exact h clashState ⟨rfl, rfl⟩

/-- Claim C6 (amended): in every snapshot satisfying the producer-side
transient well-formedness invariant, `touch_down` and `touch_up` are
mutually exclusive, and no button is simultaneously in `button_down` and
`button_up`; the type itself does not enforce this. -/
theorem transients_mutually_exclusive (s : gvr_controller_state)
    (h : transientsWellFormed s = true) :
    ¬(s.touch_down = true ∧ s.touch_up = true) ∧
    ∀ i : Fin GVR_CONTROLLER_BUTTON_COUNT,
      ¬(s.button_down i = true ∧ s.button_up i = true) := by
  unfold transientsWellFormed at h
  simp only [Bool.and_eq_true, Bool.not_eq_true', Bool.and_eq_false_iff,
    decide_eq_true_eq] at h
  obtain ⟨h1, h2⟩ := h
  constructor
  · rintro ⟨ha, hb⟩
    rcases h1 with h1 | h1 <;> simp_all
  · intro i
    rintro ⟨ha, hb⟩
    have := h2 i
    simp_all

/-- Claim C7: the connection-state step relation admits exactly the edges
DISCONNECTED→SCANNING, SCANNING→CONNECTING, CONNECTING→CONNECTED and
CONNECTED→DISCONNECTED; the trace SCANNING→CONNECTING→CONNECTED→DISCONNECTED
is accepted while CONNECTED→SCANNING is invalid. -/
theorem validTransition_characterization :
    (∀ a b : gvr_controller_connection_state,
      validTransition a b = true ↔
        ((a = GVR_CONTROLLER_DISCONNECTED ∧ b = GVR_CONTROLLER_SCANNING) ∨
         (a = GVR_CONTROLLER_SCANNING ∧ b = GVR_CONTROLLER_CONNECTING) ∨
         (a = GVR_CONTROLLER_CONNECTING ∧ b = GVR_CONTROLLER_CONNECTED) ∨
         (a = GVR_CONTROLLER_CONNECTED ∧ b = GVR_CONTROLLER_DISCONNECTED))) ∧
    acceptsTrace GVR_CONTROLLER_SCANNING
      [GVR_CONTROLLER_CONNECTING, GVR_CONTROLLER_CONNECTED,
       GVR_CONTROLLER_DISCONNECTED] = true ∧
    validTransition GVR_CONTROLLER_CONNECTED GVR_CONTROLLER_SCANNING = false := by
  refine ⟨?_, rfl, rfl⟩
  decide

/-- Claim C8: storing a rectangle — in particular left=0, right=1,
bottom=0, top=1 — into either rectangle field of `gvr_render_params` and
reading it back yields exactly the same four field values, and reading
leaves every other field of the record unchanged. -/
theorem renderParams_rect_roundtrip :
    (∀ (p : gvr_render_params) (r : gvr_rectf),
      (setEyeViewportBounds p r).eye_viewport_bounds = r ∧
      (setEyeViewportBounds p r).eye_fov = p.eye_fov ∧
      (setEyeViewportBounds p r).eye_type = p.eye_type ∧
      (setEyeFov p r).eye_fov = r ∧
      (setEyeFov p r).eye_viewport_bounds = p.eye_viewport_bounds ∧
      (setEyeFov p r).eye_type = p.eye_type) ∧
    (∀ p : gvr_render_params,
      (setEyeViewportBounds p ⟨0, 1, 0, 1⟩).eye_viewport_bounds.left = 0 ∧
      (setEyeViewportBounds p ⟨0, 1, 0, 1⟩).eye_viewport_bounds.right = 1 ∧
      (setEyeViewportBounds p ⟨0, 1, 0, 1⟩).eye_viewport_bounds.bottom = 0 ∧
      (setEyeViewportBounds p ⟨0, 1, 0, 1⟩).eye_viewport_bounds.top = 1) :=
  ⟨fun _ _ => ⟨rfl, rfl, rfl, rfl, rfl, rfl⟩, fun _ => ⟨rfl, rfl, rfl, rfl⟩⟩

/-- Render parameters with degenerate (empty) rectangles: a legal value of
the `gvr_render_params` type. -/
def degenerateRenderParams : gvr_render_params :=
  { eye_viewport_bounds := ⟨0, 0, 0, 0⟩
    eye_fov := ⟨0, 0, 0, 0⟩
    eye_type := gvr_eye.GVR_LEFT_EYE }

/-- Claim C9 (counterexample): it is not the case that every value of the
`gvr_render_params` type satisfies left < right and bottom < top for both
rectangles — `degenerateRenderParams` violates all four inequalities. -/
theorem renderParams_invariant_not_enforced :
    ¬ ∀ p : gvr_render_params,
      p.eye_viewport_bounds.left < p.eye_viewport_bounds.right ∧
      p.eye_viewport_bounds.bottom < p.eye_viewport_bounds.top ∧
      p.eye_fov.left < p.eye_fov.right ∧
      p.eye_fov.bottom < p.eye_fov.top := by
  intro h
  exact absurd (h degenerateRenderParams).1 (lt_irrefl 0)

/-- Claim C9 (amended): for render parameters satisfying the
well-formedness predicate, both rectangles satisfy left < right and
bottom < top, and the field-wise copy both preserves well-formedness and
equals the original; the type itself does not enforce the invariant. -/
theorem renderParams_wellFormed_invariant (p : gvr_render_params)
    (h : renderParamsWellFormed p = true) :
    (p.eye_viewport_bounds.left < p.eye_viewport_bounds.right ∧
     p.eye_viewport_bounds.bottom < p.eye_viewport_bounds.top ∧
     p.eye_fov.left < p.eye_fov.right ∧
     p.eye_fov.bottom < p.eye_fov.top) ∧
    renderParamsWellFormed (copyRenderParams p) = true ∧
    copyRenderParams p = p := by
  have hcopy : copyRenderParams p = p := rfl
  simp only [renderParamsWellFormed, rectfWellFormed, Bool.and_eq_true,
    decide_eq_true_eq] at h
  exact ⟨⟨h.1.1, h.1.2, h.2.1, h.2.2⟩, by
    simp only [renderParamsWellFormed, rectfWellFormed, hcopy,
      Bool.and_eq_true, decide_eq_true_eq]
    exact ⟨h.1, h.2⟩, hcopy⟩

/-- Well-formed render parameters: the unit viewport and a symmetric
90-degree field of view. -/
def unitRenderParams : gvr_render_params :=
  { eye_viewport_bounds := ⟨0, 1, 0, 1⟩
    eye_fov := ⟨-45, 45, -45, 45⟩
    eye_type := gvr_eye.GVR_LEFT_EYE }

/-- Witness for claim C9 at the concrete value `unitRenderParams`. -/
theorem renderParams_wellFormed_invariant_witness :
    (unitRenderParams.eye_viewport_bounds.left <
       unitRenderParams.eye_viewport_bounds.right ∧
     unitRenderParams.eye_viewport_bounds.bottom <
       unitRenderParams.eye_viewport_bounds.top ∧
     unitRenderParams.eye_fov.left < unitRenderParams.eye_fov.right ∧
     unitRenderParams.eye_fov.bottom < unitRenderParams.eye_fov.top) ∧
    renderParamsWellFormed (copyRenderParams unitRenderParams) = true ∧
    copyRenderParams unitRenderParams = unitRenderParams :=
  renderParams_wellFormed_invariant unitRenderParams (by decide)

/-- A 3D vector and a second one differing only in the `z` component. -/
def vecA : gvr_vec3f := ⟨1, 2, 3⟩

/-- A 3D vector equal to `vecA` in `x` and `y` but with a different `z`. -/
def vecB : gvr_vec3f := ⟨1, 2, 4⟩

/-- Claim C10: the header's equality operator on `gvr::Vec3f` compares
only `x` and `y`: it declares `vecA` and `vecB` equal although their `z`
components differ, so it is not componentwise equality of all three
fields, while the inequality operator is its exact negation. -/
theorem vec3f_eq_ignores_z :
    (vec3f_eq vecA vecB = true ∧ vecA.z ≠ vecB.z ∧ vecA.x = vecB.x ∧
      vecA.y = vecB.y ∧ vecA ≠ vecB) ∧
    (∀ v w : gvr_vec3f, vec3f_ne v w = !(vec3f_eq v w)) :=
  ⟨⟨by decide, by decide, rfl, rfl, by decide⟩, fun _ _ => rfl⟩

/-- Witness for claim C6 at the concrete well-formed snapshot
`touchStartState`, whose transient fields satisfy the producer invariant. -/
theorem transients_mutually_exclusive_witness :
    ¬(touchStartState.touch_down = true ∧ touchStartState.touch_up = true) ∧
    ∀ i : Fin GVR_CONTROLLER_BUTTON_COUNT,
      ¬(touchStartState.button_down i = true ∧
        touchStartState.button_up i = true) :=
  transients_mutually_exclusive touchStartState (by decide)
